import Mathlib

/-!
Shallow embedding of `camera_trap_image_name_extractor/__init__.py`.

Python `pathlib.PurePath` values are modelled as an `absolute` flag (the
anchor `"/"`) plus the list of path components after the anchor, so that
`Path(".")` and `Path("/")` both have an empty component list.  The string
helpers (`str.split()`, `Path.stem`, `Path.suffix`, `str.lower()`,
`str.startswith`) are embedded on the ASCII fragment the program relies on.
-/

/-- Characters that Python `str.split()` (no argument) treats as whitespace,
restricted to the ASCII range used by this program. -/
def isPySpace (c : Char) : Bool :=
  c == ' ' || c == '\t' || c == '\n' || c == '\r' || c == '\x0b' || c == '\x0c'

/-- Helper for `pySplit`: walk the characters, accumulating the current
(reversed) token and emitting it at whitespace boundaries. -/
def splitWsAux : List Char → List Char → List String
  | [], acc => if acc.isEmpty then [] else [String.mk acc.reverse]
  | c :: cs, acc =>
    if isPySpace c then
      if acc.isEmpty then splitWsAux cs []
      else String.mk acc.reverse :: splitWsAux cs []
    else splitWsAux cs (c :: acc)

/-- Python `s.split()` with no separator: split on runs of whitespace and
discard empty tokens. -/
def pySplit (s : String) : List String := splitWsAux s.toList []

/-- Python `name.rfind('.')`: index of the last `'.'`, if any. -/
def rfindDot (cs : List Char) : Option Nat :=
  ((List.range cs.length).filter (fun i => cs.getD i ' ' == '.')).getLast?

/-- Python `PurePath.stem` applied to a file name `nm`: the name with its last
extension removed; the last `'.'` counts only when it is neither the first
character nor the last one. -/
def pyStem (nm : String) : String :=
  let cs := nm.toList
  match rfindDot cs with
  | some i => if 0 < i ∧ i + 1 < cs.length then String.mk (cs.take i) else nm
  | none => nm

/-- Python `PurePath.suffix` applied to a file name `nm`: the last extension
including the dot, or `""` when there is none. -/
def pySuffixOf (nm : String) : String :=
  let cs := nm.toList
  match rfindDot cs with
  | some i => if 0 < i ∧ i + 1 < cs.length then String.mk (cs.drop i) else ""
  | none => ""

/-- ASCII lowercasing of one character, as `str.lower()` acts on ASCII. -/
def lowerChar (c : Char) : Char :=
  if 'A' ≤ c ∧ c ≤ 'Z' then Char.ofNat (c.toNat + 32) else c

/-- Python `s.lower()` on the ASCII fragment. -/
def pyLower (s : String) : String := String.mk (s.toList.map lowerChar)

/-- Python `s.startswith('.')`. -/
def startsWithDot (s : String) : Bool :=
  match s.toList with
  | '.' :: _ => true
  | _ => false

/-- A `pathlib.PurePath`: `absolute` is true when the path has the anchor
`"/"`; `segments` are the components after the anchor.  `Path(".")` is
`⟨false, []⟩` and `Path("/")` is `⟨true, []⟩`. -/
structure PyPath where
  absolute : Bool
  segments : List String
deriving DecidableEq, Repr

namespace PyPath

/-- `Path.name`: the last component, or `""` for `"."` and `"/"`. -/
def name (p : PyPath) : String := p.segments.getLastD ""

/-- `Path.parent`: drop the last component; the anchor (`"."` or `"/"`) is its
own parent, which `List.dropLast` on `[]` already gives. -/
def parent (p : PyPath) : PyPath := ⟨p.absolute, p.segments.dropLast⟩

/-- `Path.stem`. -/
def stem (p : PyPath) : String := pyStem p.name

/-- `Path.suffix`. -/
def ext (p : PyPath) : String := pySuffixOf p.name

/-- `str(path)`. -/
def toStr (p : PyPath) : String :=
  if p.segments.isEmpty then (if p.absolute then "/" else ".")
  else (if p.absolute then "/" else "") ++ String.intercalate "/" p.segments

end PyPath

/-- `parent` applied `n` times. -/
def parentN : Nat → PyPath → PyPath
  | 0, p => p
  | n + 1, p => parentN n (PyPath.parent p)

/-- `format_image_id` (source lines 16–24): split the stem on whitespace; with
six or more tokens build `"{camera_id}_{y}-{m}-{d}_{h}-{mi}-{s}_JPEG"` from the
first six, otherwise return the full file name. -/
def format_image_id (file_path : PyPath) (camera_id : String) : String :=
  let name_parts := pySplit (PyPath.stem file_path)
  if 6 ≤ name_parts.length then
    let year := name_parts.getD 0 ""
    let month := name_parts.getD 1 ""
    let day := name_parts.getD 2 ""
    let hour := name_parts.getD 3 ""
    let minute := name_parts.getD 4 ""
    let second := name_parts.getD 5 ""
    camera_id ++ "_" ++ (year ++ "-" ++ month ++ "-" ++ day) ++ "_" ++
      (hour ++ "-" ++ minute ++ "-" ++ second) ++ "_JPEG"
  else PyPath.name file_path

/-- A Python exception value (only its message matters here). -/
inductive PyExc where
  | exc : String → PyExc
deriving DecidableEq, Repr

/-- `PurePath.parent` seen inside a `try:` block: a total attribute access that
never raises, hence always `Except.ok`. -/
def parentE (p : PyPath) : Except PyExc PyPath := Except.ok (PyPath.parent p)

/-- `PurePath.name` seen inside a `try:` block: total, never raises. -/
def nameE (p : PyPath) : Except PyExc String := Except.ok (PyPath.name p)

/-- Body of the `try:` in `extract_camera_number` (source lines 37–39):
`camera_dir = file_path.parent.parent.parent; return camera_dir.name`. -/
def extractCameraBody (file_path : PyPath) : Except PyExc String := do
  let camera_dir ← parentE (← parentE (← parentE file_path))
  nameE camera_dir

/-- `extract_camera_number` (source lines 33–41): the `try:` body guarded by
`except Exception: return "unknown"`. -/
def extract_camera_number (file_path : PyPath) : String :=
  match extractCameraBody file_path with
  | Except.ok n => n
  | Except.error _ => "unknown"

/-- One output row (one `df.loc[len(df)]` append, source lines 70–76). -/
structure ImageRecord where
  imageID : String
  location : String
  camera : String
  species : String
  count : String
deriving DecidableEq, Repr

/-- One filesystem entry enumerated by `input_dir.rglob('*')`: its path
relative to the scan root (a nonempty component list for real entries) and
whether it is a regular file. -/
structure Entry where
  relSegs : List String
  isFile : Bool
deriving DecidableEq, Repr

/-- The absolute-or-relative path `rglob` hands back for an entry: the scan
root joined with the entry's relative components. -/
def fullPath (input_dir : PyPath) (e : Entry) : PyPath :=
  ⟨input_dir.absolute, input_dir.segments ++ e.relSegs⟩

/-- The qualification filter (source lines 58–60, also the pre-count on lines
52–54): regular file, name not starting with `'.'`, lowercased extension in
`['.jpg', '.jpeg']`. -/
def qualifies (input_dir : PyPath) (e : Entry) : Bool :=
  e.isFile && !startsWithDot (PyPath.name (fullPath input_dir e)) &&
    (pyLower (PyPath.ext (fullPath input_dir e)) == ".jpg" ||
     pyLower (PyPath.ext (fullPath input_dir e)) == ".jpeg")

/-- `parts[0] if parts else "unknown"` (source line 64). -/
def cameraIdOf (parts : List String) : String :=
  match parts with
  | [] => "unknown"
  | p :: _ => p

/-- Python truthiness of a `pathlib` path (source line 65 tests
`if file_path.parent.parent`): `PurePath` defines neither `__bool__` nor
`__len__`, so every path object is truthy. -/
def pyPathTruthy (_ : PyPath) : Bool := true

/-- The record built for one qualifying file (source lines 62–76).
`rel_path = file_path.relative_to(input_dir)` has exactly the entry's
relative components as its `parts`. -/
def processEntry (input_dir : PyPath) (e : Entry) : ImageRecord :=
  let file_path := fullPath input_dir e
  let rel_path : PyPath := ⟨false, e.relSegs⟩
  let parts := e.relSegs
  let camera_id := cameraIdOf parts
  let species :=
    if pyPathTruthy (PyPath.parent (PyPath.parent file_path)) then
      PyPath.name (PyPath.parent (PyPath.parent file_path))
    else "unknown"
  let count := PyPath.name (PyPath.parent file_path)
  let image_id := format_image_id file_path camera_id
  let camera := extract_camera_number file_path
  { imageID := image_id
    location := PyPath.toStr (PyPath.parent rel_path)
    camera := camera
    species := species
    count := count }

/-- The message printed by the per-file `except` handler (source line 79). -/
def errMsg (input_dir : PyPath) (e : Entry) (m : String) : String :=
  "Error processing " ++ PyPath.toStr (fullPath input_dir e) ++ ": " ++ m

/-- The rows accumulated by the scan loop (source lines 57–79), in traversal
order.  `err` is an oracle saying whether the body raises for a given entry
(permission error, filesystem race, …); a raising entry contributes no row. -/
def scanRecords (input_dir : PyPath) (err : Entry → Option String) :
    List Entry → List ImageRecord
  | [] => []
  | e :: es =>
    if qualifies input_dir e then
      match err e with
      | none => processEntry input_dir e :: scanRecords input_dir err es
      | some _ => scanRecords input_dir err es
    else scanRecords input_dir err es

/-- The error lines printed by the scan loop (source line 79), in traversal
order. -/
def scanErrors (input_dir : PyPath) (err : Entry → Option String) :
    List Entry → List String
  | [] => []
  | e :: es =>
    if qualifies input_dir e then
      match err e with
      | none => scanErrors input_dir err es
      | some m => errMsg input_dir e m :: scanErrors input_dir err es
    else scanErrors input_dir err es

/-- `df.sort_values('Image ID')` (source line 81): sort rows ascending by the
`Image ID` column under lexicographic string order. -/
def sortByImageId (rs : List ImageRecord) : List ImageRecord :=
  rs.mergeSort (fun a b => decide (a.imageID ≤ b.imageID))

/-- What a run of the scan produces besides the success flag. -/
structure ScanOutput where
  records : List ImageRecord
  errors : List String
deriving DecidableEq, Repr

/-- The scan over an existing root (source lines 56–82): accumulate rows and
per-file error messages, then sort the rows by `Image ID`. -/
def processDirectoryAux (input_dir : PyPath) (entries : List Entry)
    (err : Entry → Option String) : ScanOutput :=
  { records := sortByImageId (scanRecords input_dir err entries)
    errors := scanErrors input_dir err entries }

/-- The rows written on a run in which no per-file exception occurs. -/
def processDirectoryRecords (input_dir : PyPath) (entries : List Entry) :
    List ImageRecord :=
  (processDirectoryAux input_dir entries (fun _ => none)).records

/-- Result of `process_directory` (source lines 43–84): the returned flag,
the rows written to the output file (`none` when no file is created), and the
messages printed. -/
structure RunResult where
  success : Bool
  written : Option (List ImageRecord)
  messages : List String
deriving DecidableEq, Repr

/-- `process_directory` (source lines 43–84).  `rootExists` models
`input_dir.exists()`; when it is false the function prints the error and
returns `False` before any output path is created or written. -/
def process_directory (rootExists : Bool) (input_dir : PyPath)
    (entries : List Entry) (err : Entry → Option String) : RunResult :=
  if !rootExists then
    { success := false
      written := none
      messages := ["Error: Input directory does not exist: " ++ PyPath.toStr input_dir] }
  else
    let out := processDirectoryAux input_dir entries err
    { success := true
      written := some out.records
      messages := out.errors ++
        ["Successfully saved " ++ toString out.records.length ++ " images"] }

/-- Exit code of `main` (source lines 107–113): `sys.exit(1)` when
`process_directory` returns `False`, otherwise 0. -/
def mainExitCode (rootExists : Bool) (input_dir : PyPath)
    (entries : List Entry) (err : Entry → Option String) : Nat :=
  if (process_directory rootExists input_dir entries err).success then 0 else 1

/-- C1: splitting the filename without its extension on whitespace and getting
six or more tokens yields `"{camera_id}_{y}-{m}-{d}_{h}-{mi}-{s}_JPEG"` from
the first six tokens verbatim (tokens beyond the sixth dropped); fewer than
six tokens yields the original filename with its extension, unchanged. -/
theorem C1_format_image_id (p : PyPath) (cid y mo d h mi s : String)
    (rest : List String) :
    (pySplit (PyPath.stem p) = y :: mo :: d :: h :: mi :: s :: rest →
      format_image_id p cid =
        cid ++ "_" ++ (y ++ "-" ++ mo ++ "-" ++ d) ++ "_" ++
          (h ++ "-" ++ mi ++ "-" ++ s) ++ "_JPEG") ∧
    ((pySplit (PyPath.stem p)).length < 6 →
      format_image_id p cid = PyPath.name p) := by
  constructor
  · intro hsp
    simp only [format_image_id, hsp, List.length_cons]
    rw [if_pos (by omega)]
    rfl
  · intro hlt
    simp only [format_image_id]
    rw [if_neg (by omega)]

/-- C1 witness: the spec's two examples, via `C1_format_image_id`. -/
theorem C1_format_image_id_witness :
    format_image_id ⟨false, ["2020 01 15 08 30 00.jpg"]⟩ "CAM1" =
      "CAM1_2020-01-15_08-30-00_JPEG" ∧
    format_image_id ⟨false, ["IMG_0001.jpg"]⟩ "CAM1" = "IMG_0001.jpg" := by
  constructor
  · rw [(C1_format_image_id ⟨false, ["2020 01 15 08 30 00.jpg"]⟩ "CAM1"
      "2020" "01" "15" "08" "30" "00" []).1 (by decide)]
    rfl
  · rw [(C1_format_image_id ⟨false, ["IMG_0001.jpg"]⟩ "CAM1"
      "" "" "" "" "" "" []).2 (by decide)]
    rfl

/-- C10: the `except` fallback in `extract_camera_number` is dead code: the
`try:` body never raises, the function always returns
`file_path.parent.parent.parent.name`, and on a path with fewer than three
components past the anchor that name is the anchor's empty name, not
`"unknown"`. -/
theorem C10_except_unreachable (p : PyPath) :
    extractCameraBody p =
      Except.ok (PyPath.name (PyPath.parent (PyPath.parent (PyPath.parent p)))) ∧
    extract_camera_number p =
      PyPath.name (PyPath.parent (PyPath.parent (PyPath.parent p))) ∧
    (p.segments.length ≤ 3 → extract_camera_number p = "") := by
  refine ⟨rfl, rfl, fun hle => ?_⟩
  show PyPath.name (PyPath.parent (PyPath.parent (PyPath.parent p))) = ""
  have hlen : p.segments.dropLast.dropLast.dropLast.length = 0 := by
    simp only [List.length_dropLast]
    omega
  have hnil : p.segments.dropLast.dropLast.dropLast = [] :=
    List.eq_nil_of_length_eq_zero hlen
  simp [PyPath.name, PyPath.parent, hnil]

/-- C10 witness: a two-component path yields the anchor's empty name. -/
theorem C10_except_unreachable_witness :
    (⟨true, ["a", "b"]⟩ : PyPath).segments.length ≤ 3 ∧
    extract_camera_number ⟨true, ["a", "b"]⟩ = "" :=
  ⟨by decide, (C10_except_unreachable ⟨true, ["a", "b"]⟩).2.2 (by decide)⟩

/-- The scan loop keeps exactly the qualifying entries whose processing does
not raise, each contributing its record, in traversal order. -/
theorem scanRecords_eq_filter_map (input_dir : PyPath)
    (err : Entry → Option String) (entries : List Entry) :
    scanRecords input_dir err entries =
      (entries.filter (fun e => qualifies input_dir e && (err e).isNone)).map
        (processEntry input_dir) := by
  induction entries with
  | nil => rfl
  | cons e es ih =>
    simp only [scanRecords, List.filter_cons]
    cases hq : qualifies input_dir e
    · simpa [hq] using ih
    · cases herr : err e <;> simp [hq, herr, ih]

/-- C2: the output has exactly one row per qualifying entry (its record), and
zero rows for every non-qualifying entry; when the enumerated paths are
distinct, so are the paths the rows come from. -/
theorem C2_one_row_per_qualifying (input_dir : PyPath) (entries : List Entry) :
    (processDirectoryRecords input_dir entries).Perm
      ((entries.filter (qualifies input_dir)).map (processEntry input_dir)) ∧
    ((entries.map Entry.relSegs).Nodup →
      ((entries.filter (qualifies input_dir)).map Entry.relSegs).Nodup) := by
  constructor
  · have h1 : scanRecords input_dir (fun _ => none) entries =
        (entries.filter (qualifies input_dir)).map (processEntry input_dir) := by
      rw [scanRecords_eq_filter_map]
      simp
    show sortByImageId (scanRecords input_dir (fun _ => none) entries) |>.Perm _
    rw [h1]
    exact List.mergeSort_perm _ _
  · intro hnd
    exact hnd.sublist ((List.filter_sublist entries).map Entry.relSegs)

/-- C2 witness: a qualifying file and a directory under a concrete root. -/
theorem C2_one_row_per_qualifying_witness :
    (([⟨["a.jpg"], true⟩, ⟨["sub"], false⟩] : List Entry).map Entry.relSegs).Nodup ∧
    ((([⟨["a.jpg"], true⟩, ⟨["sub"], false⟩] : List Entry).filter
        (qualifies ⟨false, ["root"]⟩)).map Entry.relSegs).Nodup :=
  ⟨by decide,
   (C2_one_row_per_qualifying ⟨false, ["root"]⟩
     [⟨["a.jpg"], true⟩, ⟨["sub"], false⟩]).2 (by decide)⟩

/-- C6: the written sequence of rows is sorted ascending by `Image ID` under
lexicographic string order — every adjacent pair `(a, b)` satisfies
`a.imageID ≤ b.imageID` — for every enumeration order and error pattern. -/
theorem C6_output_sorted (input_dir : PyPath) (entries : List Entry)
    (err : Entry → Option String) :
    List.Chain' (fun a b => a.imageID ≤ b.imageID)
      (processDirectoryAux input_dir entries err).records := by
  have htrans : ∀ a b c : ImageRecord,
      decide (a.imageID ≤ b.imageID) → decide (b.imageID ≤ c.imageID) →
        decide (a.imageID ≤ c.imageID) := by
    intro a b c hab hbc
    simp only [decide_eq_true_eq] at *
    exact le_trans hab hbc
  have htotal : ∀ a b : ImageRecord,
      decide (a.imageID ≤ b.imageID) || decide (b.imageID ≤ a.imageID) := by
    intro a b
    simpa using le_total a.imageID b.imageID
  have hpw := List.sorted_mergeSort htrans htotal
    (scanRecords input_dir err entries)
  have hchain := hpw.chain'
  exact hchain.imp (fun _ _ hab => of_decide_eq_true hab)

/-- The Camera field is the `getLastD` of the thrice-`dropLast`ed full
component list. -/
theorem processEntry_camera (input_dir : PyPath) (e : Entry) :
    (processEntry input_dir e).camera =
      ((input_dir.segments ++ e.relSegs).dropLast.dropLast.dropLast).getLastD "" :=
  rfl

/-- The Species field is the `getLastD` of the twice-`dropLast`ed full
component list. -/
theorem processEntry_species (input_dir : PyPath) (e : Entry) :
    (processEntry input_dir e).species =
      ((input_dir.segments ++ e.relSegs).dropLast.dropLast).getLastD "" :=
  rfl

/-- `parentN` on the path components. -/
theorem parentN_segments (n : Nat) (p : PyPath) :
    (parentN n p).segments = (List.dropLast)^[n] p.segments := by
  induction n generalizing p with
  | zero => rfl
  | succ k ih =>
    rw [parentN, ih, Function.iterate_succ_apply]
    rfl

/-- C3 counterexample: under scan root `a/b/c`, the qualifying file `x.jpg`
sits at depth `< 3` below the root, yet its Camera field is `"a"` (the
directory three levels up in the full path), not `"unknown"` as the claim
states. -/
theorem C3_counterexample :
    qualifies ⟨false, ["a", "b", "c"]⟩ ⟨["x.jpg"], true⟩ = true ∧
    (⟨["x.jpg"], true⟩ : Entry).relSegs.length < 3 ∧
    (processEntry ⟨false, ["a", "b", "c"]⟩ ⟨["x.jpg"], true⟩).camera = "a" ∧
    ("a" : String) ≠ "unknown" := by decide

/-- C3 amended: for a qualifying file at depth ≥ 3 below the root the Camera
field is its great-grandparent directory's name; at depth < 3 it is the name
of the ancestor of the scan root reached by ascending the remaining levels
(in particular the anchor's empty name when the root path is short), never the
literal `"unknown"` produced by the dead `except` branch. -/
theorem C3_camera_ancestor (input_dir : PyPath) (e : Entry) :
    (∀ pre a b c f, e.relSegs = pre ++ [a, b, c, f] →
      (processEntry input_dir e).camera = a) ∧
    (e.relSegs.length ≤ 3 →
      (processEntry input_dir e).camera =
        PyPath.name (parentN (3 - e.relSegs.length) input_dir)) := by
  constructor
  · intro pre a b c f h
    rw [processEntry_camera, h]
    simp
  · intro hlen
    rw [processEntry_camera]
    show _ = (parentN (3 - e.relSegs.length) input_dir).segments.getLastD ""
    rw [parentN_segments]
    rcases hs : e.relSegs with _ | ⟨x, _ | ⟨y, _ | ⟨z, tl⟩⟩⟩
    · simp [Function.iterate_succ_apply]
    · simp [Function.iterate_succ_apply]
    · simp [Function.iterate_succ_apply]
    · rcases tl with _ | ⟨w, tl'⟩
      · simp [Function.iterate_succ_apply]
      · rw [hs] at hlen
        simp at hlen

/-- C3 witness: a depth-3 file gets its great-grandparent's name; a file
directly under the two-component root `r1/r2` gets the anchor's empty name. -/
theorem C3_camera_ancestor_witness :
    (processEntry ⟨false, ["root"]⟩ ⟨["A", "B", "C", "p.jpg"], true⟩).camera = "A" ∧
    (⟨["x.jpg"], true⟩ : Entry).relSegs.length ≤ 3 ∧
    (processEntry ⟨false, ["r1", "r2"]⟩ ⟨["x.jpg"], true⟩).camera =
      PyPath.name (parentN (3 - (⟨["x.jpg"], true⟩ : Entry).relSegs.length)
        ⟨false, ["r1", "r2"]⟩) :=
  ⟨(C3_camera_ancestor ⟨false, ["root"]⟩ ⟨["A", "B", "C", "p.jpg"], true⟩).1
      [] "A" "B" "C" "p.jpg" rfl,
   by decide,
   (C3_camera_ancestor ⟨false, ["r1", "r2"]⟩ ⟨["x.jpg"], true⟩).2 (by decide)⟩

/-- C4 counterexample: under scan root `a/b/c`, the qualifying file `x.jpg`
directly below the root has no grandparent directory below the root, yet its
Species field is `"b"` (the grandparent in the full path, above the scan
root), not `"unknown"` as the claim states. -/
theorem C4_counterexample :
    qualifies ⟨false, ["a", "b", "c"]⟩ ⟨["x.jpg"], true⟩ = true ∧
    (⟨["x.jpg"], true⟩ : Entry).relSegs.length < 2 ∧
    (processEntry ⟨false, ["a", "b", "c"]⟩ ⟨["x.jpg"], true⟩).species = "b" ∧
    ("b" : String) ≠ "unknown" := by decide

/-- C4 amended: for a qualifying file with at least two ancestor directories
below the root the Species field is its grandparent directory's name; with
fewer, it is the name of the ancestor of the scan root reached by ascending
the remaining levels (the anchor's empty name when the root path is short),
never the literal `"unknown"` — the truthiness guard on line 65 is dead
because a `pathlib` path is always truthy. -/
theorem C4_species_field (input_dir : PyPath) (e : Entry) :
    (∀ pre a b f, e.relSegs = pre ++ [a, b, f] →
      (processEntry input_dir e).species = a) ∧
    (e.relSegs.length ≤ 2 →
      (processEntry input_dir e).species =
        PyPath.name (parentN (2 - e.relSegs.length) input_dir)) := by
  constructor
  · intro pre a b f h
    rw [processEntry_species, h]
    simp
  · intro hlen
    rw [processEntry_species]
    show _ = (parentN (2 - e.relSegs.length) input_dir).segments.getLastD ""
    rw [parentN_segments]
    rcases hs : e.relSegs with _ | ⟨x, _ | ⟨y, tl⟩⟩
    · simp [Function.iterate_succ_apply]
    · simp [Function.iterate_succ_apply]
    · rcases tl with _ | ⟨z, tl'⟩
      · simp [Function.iterate_succ_apply]
      · rw [hs] at hlen
        simp at hlen

/-- C4 witness: a depth-2 file gets its grandparent's name; a file directly
under the one-component root `r` gets the anchor's empty name. -/
theorem C4_species_field_witness :
    (processEntry ⟨false, ["root"]⟩ ⟨["Fox", "3", "p.jpg"], true⟩).species = "Fox" ∧
    (⟨["x.jpg"], true⟩ : Entry).relSegs.length ≤ 2 ∧
    (processEntry ⟨false, ["r"]⟩ ⟨["x.jpg"], true⟩).species =
      PyPath.name (parentN (2 - (⟨["x.jpg"], true⟩ : Entry).relSegs.length)
        ⟨false, ["r"]⟩) :=
  ⟨(C4_species_field ⟨false, ["root"]⟩ ⟨["Fox", "3", "p.jpg"], true⟩).1
      [] "Fox" "3" "p.jpg" rfl,
   by decide,
   (C4_species_field ⟨false, ["r"]⟩ ⟨["x.jpg"], true⟩).2 (by decide)⟩

/-- C5 counterexample: a qualifying file sitting directly in the root has a
one-element relative path, so `parts` is nonempty and `parts[0]` is the file
name itself — the `camera_id` fed into identifier normalization is the file
name, not `"unknown"`; it even surfaces verbatim inside the produced
identifier. -/
theorem C5_counterexample :
    qualifies ⟨false, ["root"]⟩ ⟨["2020 01 15 08 30 00.jpg"], true⟩ = true ∧
    cameraIdOf [("2020 01 15 08 30 00.jpg" : String)] = "2020 01 15 08 30 00.jpg" ∧
    (processEntry ⟨false, ["root"]⟩ ⟨["2020 01 15 08 30 00.jpg"], true⟩).imageID =
      "2020 01 15 08 30 00.jpg_2020-01-15_08-30-00_JPEG" ∧
    ("2020 01 15 08 30 00.jpg" : String) ≠ "unknown" := by decide

/-- C5 amended: the `camera_id` fed into identifier normalization is always
the first segment of the file's path relative to the root; for a file sitting
directly in the root that segment is the file name itself.  The `"unknown"`
branch of `parts[0] if parts else "unknown"` would require an empty relative
path, which no enumerated file has. -/
theorem C5_camera_id (input_dir : PyPath) (e : Entry) :
    (∀ d rest, e.relSegs = d :: rest →
      (processEntry input_dir e).imageID =
        format_image_id (fullPath input_dir e) d) ∧
    (∀ f, cameraIdOf [f] = f) := by
  constructor
  · intro d rest h
    show format_image_id (fullPath input_dir e) (cameraIdOf e.relSegs) = _
    rw [h]
    rfl
  · intro f
    rfl

/-- C5 witness: a file directly in the root feeds its own name as
`camera_id`. -/
theorem C5_camera_id_witness :
    (processEntry ⟨false, ["root"]⟩ ⟨["x.jpg"], true⟩).imageID =
      format_image_id (fullPath ⟨false, ["root"]⟩ ⟨["x.jpg"], true⟩) "x.jpg" ∧
    cameraIdOf [("x.jpg" : String)] = "x.jpg" :=
  ⟨(C5_camera_id ⟨false, ["root"]⟩ ⟨["x.jpg"], true⟩).1 "x.jpg" [] rfl,
   (C5_camera_id ⟨false, ["root"]⟩ ⟨["x.jpg"], true⟩).2 "x.jpg"⟩

/-- The loop prints one error line, naming the offending path, for every
qualifying entry whose processing raises. -/
theorem scanErrors_mem (input_dir : PyPath) (err : Entry → Option String)
    (entries : List Entry) (e : Entry) (he : e ∈ entries)
    (hq : qualifies input_dir e = true) (m : String) (hm : err e = some m) :
    errMsg input_dir e m ∈ scanErrors input_dir err entries := by
  induction entries with
  | nil => cases he
  | cons e' es ih =>
    rcases List.mem_cons.mp he with heq | htl
    · subst heq
      simp [scanErrors, hq, hm]
    · have hmem := ih htl
      unfold scanErrors
      cases hq' : qualifies input_dir e'
      · simpa [hq'] using hmem
      · cases herr' : err e' <;> simp [hmem]

/-- C7: if processing one qualifying file raises, the error is reported with
the offending path and only that file's row is missing — the output rows are
exactly those of the qualifying files that did not raise, so one bad file
never aborts the run nor removes other files' rows. -/
theorem C7_failure_isolation (input_dir : PyPath) (entries : List Entry)
    (err : Entry → Option String) :
    ((processDirectoryAux input_dir entries err).records).Perm
      ((entries.filter (fun e => qualifies input_dir e && (err e).isNone)).map
        (processEntry input_dir)) ∧
    (∀ e ∈ entries, qualifies input_dir e = true →
      ∀ m, err e = some m →
        errMsg input_dir e m ∈ (processDirectoryAux input_dir entries err).errors) := by
  constructor
  · show (sortByImageId (scanRecords input_dir err entries)).Perm _
    rw [scanRecords_eq_filter_map]
    exact List.mergeSort_perm _ _
  · intro e he hq m hm
    exact scanErrors_mem input_dir err entries e he hq m hm

/-- C7 witness: with two qualifying files of which exactly one raises, the
error line naming the bad file's path is printed and the good file's row is
still the whole output. -/
theorem C7_failure_isolation_witness :
    errMsg ⟨false, ["root"]⟩ ⟨["bad.jpg"], true⟩ "boom" ∈
      (processDirectoryAux ⟨false, ["root"]⟩
        [⟨["bad.jpg"], true⟩, ⟨["good.jpg"], true⟩]
        (fun e => if e.relSegs = ["bad.jpg"] then some "boom" else none)).errors ∧
    (processDirectoryAux ⟨false, ["root"]⟩
        [⟨["bad.jpg"], true⟩, ⟨["good.jpg"], true⟩]
        (fun e => if e.relSegs = ["bad.jpg"] then some "boom" else none)).records =
      [processEntry ⟨false, ["root"]⟩ ⟨["good.jpg"], true⟩] :=
  ⟨(C7_failure_isolation ⟨false, ["root"]⟩
      [⟨["bad.jpg"], true⟩, ⟨["good.jpg"], true⟩]
      (fun e => if e.relSegs = ["bad.jpg"] then some "boom" else none)).2
      ⟨["bad.jpg"], true⟩ (by decide) (by decide) "boom" (by decide),
   by
    show sortByImageId (scanRecords _ _ _) = _
    have h : scanRecords ⟨false, ["root"]⟩
        (fun e => if e.relSegs = ["bad.jpg"] then some "boom" else none)
        [⟨["bad.jpg"], true⟩, ⟨["good.jpg"], true⟩] =
        [processEntry ⟨false, ["root"]⟩ ⟨["good.jpg"], true⟩] := by decide
    rw [h]
    simp [sortByImageId, List.mergeSort]⟩

/-- C8: when the root does not exist, `process_directory` reports the error,
returns `False` (so `main` exits with status 1) and creates no output file. -/
theorem C8_missing_root (rootExists : Bool) (input_dir : PyPath)
    (entries : List Entry) (err : Entry → Option String)
    (h : rootExists = false) :
    (process_directory rootExists input_dir entries err).success = false ∧
    (process_directory rootExists input_dir entries err).written = none ∧
    ("Error: Input directory does not exist: " ++ PyPath.toStr input_dir) ∈
      (process_directory rootExists input_dir entries err).messages ∧
    mainExitCode rootExists input_dir entries err = 1 := by
  subst h
  simp [process_directory, mainExitCode]

/-- C8 witness: a concrete missing root. -/
theorem C8_missing_root_witness :
    (process_directory false ⟨false, ["missing"]⟩ [] (fun _ => none)).success = false ∧
    (process_directory false ⟨false, ["missing"]⟩ [] (fun _ => none)).written = none ∧
    ("Error: Input directory does not exist: " ++ PyPath.toStr ⟨false, ["missing"]⟩) ∈
      (process_directory false ⟨false, ["missing"]⟩ [] (fun _ => none)).messages ∧
    mainExitCode false ⟨false, ["missing"]⟩ [] (fun _ => none) = 1 :=
  C8_missing_root false ⟨false, ["missing"]⟩ [] (fun _ => none) rfl

/-- C9: the extraction is deterministic in the tree and independent of the
traversal order: enumerations of the same entries in any two orders produce
the same multiset of rows. -/
theorem C9_determinism (input_dir : PyPath) (entries1 entries2 : List Entry)
    (hperm : entries1.Perm entries2) :
    (processDirectoryRecords input_dir entries1).Perm
      (processDirectoryRecords input_dir entries2) := by
  show (sortByImageId (scanRecords input_dir (fun _ => none) entries1)).Perm
    (sortByImageId (scanRecords input_dir (fun _ => none) entries2))
  refine (List.mergeSort_perm _ _).trans
    (List.Perm.trans ?_ (List.mergeSort_perm _ _).symm)
  rw [scanRecords_eq_filter_map, scanRecords_eq_filter_map]
  exact (hperm.filter _).map _

/-- C9 witness: the same two files enumerated in both orders give the same
rows. -/
theorem C9_determinism_witness :
    (([⟨["b.jpg"], true⟩, ⟨["a.jpg"], true⟩] : List Entry).Perm
      [⟨["a.jpg"], true⟩, ⟨["b.jpg"], true⟩]) ∧
    (processDirectoryRecords ⟨false, ["root"]⟩
        [⟨["b.jpg"], true⟩, ⟨["a.jpg"], true⟩]).Perm
      (processDirectoryRecords ⟨false, ["root"]⟩
        [⟨["a.jpg"], true⟩, ⟨["b.jpg"], true⟩]) :=
  ⟨by decide,
   C9_determinism ⟨false, ["root"]⟩
     [⟨["b.jpg"], true⟩, ⟨["a.jpg"], true⟩]
     [⟨["a.jpg"], true⟩, ⟨["b.jpg"], true⟩] (by decide)⟩
